import Mathlib

/-!
Verification of the smart-card reader extension core.

Shallow embedding of `src/pcsc-client.js` and `src/background.js`:
byte sequences are `List Nat` (values < 256 where it matters), JavaScript
`null`-able strings are `Option String`, fallible sub-calls are `Except`,
and the two monitoring loops are embedded as per-cycle step functions whose
environment (broker responses, fetch outcome) is passed in explicitly.
-/

namespace CardReader

/-! ## Hex encoding (`bytesToHex` and the inline hex formatting in `parseAtr`)

JavaScript: `b.toString(16).toUpperCase().padStart(2, '0')`.  For a byte
value `b < 256` this is exactly the two uppercase hex digits below. -/

def hexDigit (n : Nat) : Char :=
  if n < 10 then Char.ofNat (48 + n) else Char.ofNat (55 + n)

def byteToHex (b : Nat) : String :=
  String.mk [hexDigit (b / 16 % 16), hexDigit (b % 16)]

/-- `bytesToHex` from pcsc-client.js: colon-separated uppercase hex. -/
def bytesToHex (bytes : List Nat) : String :=
  String.intercalate ":" (bytes.map byteToHex)

/-! ## Static tables from pcsc-client.js -/

def KNOWN_RIDS : List (String × String) :=
  [("A000000306", "NXP (PC/SC standard)"),
   ("A000000003", "Visa"),
   ("A000000004", "Mastercard"),
   ("A000000065", "JCB"),
   ("D276000085", "NFC Forum")]

def KNOWN_CARD_STANDARDS : List (String × String) :=
  [("0001", "ISO 14443 A, Part 1"),
   ("0002", "ISO 14443 A, Part 2"),
   ("0003", "ISO 14443 A, Part 3"),
   ("0005", "ISO 14443 B, Part 1"),
   ("0006", "ISO 14443 B, Part 2"),
   ("0007", "ISO 14443 B, Part 3")]

def KNOWN_CARD_NAMES : List (String × String) :=
  [("0001", "MIFARE Classic 1K"),
   ("0002", "MIFARE Classic 4K"),
   ("0003", "MIFARE Ultralight"),
   ("0026", "MIFARE Mini"),
   ("003A", "MIFARE Ultralight C"),
   ("003B", "MIFARE Ultralight EV1"),
   ("0036", "MIFARE Plus 2K SL1"),
   ("0037", "MIFARE Plus 4K SL1"),
   ("0038", "MIFARE Plus 2K SL2"),
   ("0039", "MIFARE Plus 4K SL2"),
   ("F004", "Topaz 512"),
   ("F011", "FeliCa 212K"),
   ("F012", "FeliCa 424K"),
   ("FF28", "JCOP 31/36"),
   ("FF40", "Java Card"),
   ("FF88", "Infineon SLE 66R35")]

/-! ## ATR parser (`parseAtr` in pcsc-client.js) -/

structure AtrRecord where
  cardType : Option String
  standard : Option String
  cardName : Option String
  rid : Option String
  historicalBytes : Option String
deriving DecidableEq, Repr

def nullAtrRecord : AtrRecord :=
  { cardType := none, standard := none, cardName := none, rid := none,
    historicalBytes := none }

/-- One pass of the interface-byte walk bumps the index once for each of the
TA/TB/TC indicator bits (0x10, 0x20, 0x40) of the current TD byte. -/
def bumpIdx (td idx : Nat) : Nat :=
  idx + (if td &&& 0x10 ≠ 0 then 1 else 0) + (if td &&& 0x20 ≠ 0 then 1 else 0)
    + (if td &&& 0x40 ≠ 0 then 1 else 0)

theorem le_bumpIdx (td idx : Nat) : idx ≤ bumpIdx td idx :=
  le_trans (Nat.le_add_right _ _) (le_trans (Nat.le_add_right _ _) (Nat.le_add_right _ _))

/-- The `while (td & 0xF0)` loop of `parseAtr`, made structural with a fuel
argument.  JavaScript's out-of-bounds read `atrBytes[idx] || 0` becomes
`getD idx 0` (an in-bounds byte 0 also coerces to 0 under `||`, with the
same continuation).  `walkInterfaceAux_fuel_indep` below shows the result
does not depend on the fuel once it exceeds the remaining distance, so the
fixed fuel in `walkInterface` is faithful to the unbounded loop. -/
def walkInterfaceAux (atrBytes : List Nat) : Nat → Nat → Nat → Nat
  | 0, idx, _ => idx
  | fuel + 1, idx, td =>
    if td &&& 0xF0 = 0 then idx
    else if td &&& 0x80 ≠ 0 then
      if bumpIdx td idx < atrBytes.length then
        walkInterfaceAux atrBytes fuel (bumpIdx td idx + 1) (atrBytes.getD (bumpIdx td idx) 0)
      else bumpIdx td idx + 1
    else bumpIdx td idx

def walkInterface (atrBytes : List Nat) (idx td : Nat) : Nat :=
  walkInterfaceAux atrBytes (atrBytes.length + 1) idx td

theorem walkInterfaceAux_fuel_indep (atrBytes : List Nat) :
    ∀ f₁ f₂ idx td, atrBytes.length - idx < f₁ → atrBytes.length - idx < f₂ →
      walkInterfaceAux atrBytes f₁ idx td = walkInterfaceAux atrBytes f₂ idx td := by
  intro f₁
  induction f₁ with
  | zero => omega
  | succ f ih =>
    intro f₂ idx td h₁ h₂
    match f₂, h₂ with
    | g + 1, _ =>
      show walkInterfaceAux atrBytes (f + 1) idx td = walkInterfaceAux atrBytes (g + 1) idx td
      rw [walkInterfaceAux, walkInterfaceAux]
      have hb := le_bumpIdx td idx
      split
      · rfl
      · split
        · split
          · next hlt => exact ih g (bumpIdx td idx + 1) _ (by omega) (by omega)
          · rfl
        · rfl

/-- The compact-TLV scan of the historical bytes (the `while` loop inside
`parseAtr` looking for tag 0x4F), with fuel.  The two reads
`historicalBytes[i + 2 + 5]` / `[i + 2 + 6]` are NOT bounds-checked in the
source; when the element is absent JavaScript evaluates
`undefined.toString(16)` which throws a TypeError — modeled as `.error`. -/
def tlvFound (hb : List Nat) (i : Nat) (r : AtrRecord) : Except String AtrRecord :=
  let len := hb.getD (i + 1) 0
  let ridBytes := (hb.drop (i + 2)).take 5
  let ridHex := String.join (ridBytes.map byteToHex)
  let r1 := { r with rid := some ((KNOWN_RIDS.lookup ridHex).getD ridHex) }
  if ridHex = "A000000306" ∧ 7 ≤ len then
    match hb.get? (i + 2 + 5), hb.get? (i + 2 + 6) with
    | some ssByte, some nnByte =>
      let ss := byteToHex ssByte
      let nn := byteToHex nnByte
      .ok { r1 with
            standard := some ((KNOWN_CARD_STANDARDS.lookup ("00" ++ ss)).getD
              ("Standard 0x" ++ ss)),
            cardName := some ((KNOWN_CARD_NAMES.lookup ("00" ++ nn)).getD
              ("Type 0x" ++ nn)) }
    | _, _ => .error "TypeError: undefined historical byte"
  else .ok r1

def tlvScanAux (hb : List Nat) : Nat → Nat → AtrRecord → Except String AtrRecord
  | 0, _, r => .ok r
  | fuel + 1, i, r =>
    if i + 1 < hb.length then
      if hb.getD i 0 = 0x4F ∧ 5 ≤ hb.getD (i + 1) 0 then tlvFound hb i r
      else tlvScanAux hb fuel (i + 2 + hb.getD (i + 1) 0) r
    else .ok r

def tlvScan (hb : List Nat) (i : Nat) (r : AtrRecord) : Except String AtrRecord :=
  tlvScanAux hb (hb.length + 1) i r

theorem tlvScanAux_fuel_indep (hb : List Nat) :
    ∀ f₁ f₂ i r, hb.length - i < f₁ → hb.length - i < f₂ →
      tlvScanAux hb f₁ i r = tlvScanAux hb f₂ i r := by
  intro f₁
  induction f₁ with
  | zero => omega
  | succ f ih =>
    intro f₂ i r h₁ h₂
    match f₂, h₂ with
    | g + 1, _ =>
      show tlvScanAux hb (f + 1) i r = tlvScanAux hb (g + 1) i r
      rw [tlvScanAux, tlvScanAux]
      split
      · next hin =>
        split
        · rfl
        · exact ih g (i + 2 + hb.getD (i + 1) 0) r (by omega) (by omega)
      · rfl

/-- `parseAtr` from pcsc-client.js.  Returns `.error` exactly where the
JavaScript function would throw (the unguarded standard/card-name byte
reads inside the storage-card branch); everywhere else it returns the
metadata record, all-null for too-short or unparseable input. -/
def parseAtr (atrBytes : List Nat) : Except String AtrRecord :=
  if atrBytes.length < 2 then .ok nullAtrRecord
  else
    let t0 := atrBytes.getD 1 0
    let numHistorical := t0 &&& 0x0F
    if numHistorical = 0 then .ok nullAtrRecord
    else
      let idx := walkInterface atrBytes 2 t0
      if atrBytes.length < idx + numHistorical then .ok nullAtrRecord
      else
        let historicalBytes := (atrBytes.drop idx).take numHistorical
        let r0 := { nullAtrRecord with historicalBytes := some (bytesToHex historicalBytes) }
        match (if 5 ≤ numHistorical ∧ historicalBytes.getD 0 0 = 0x80
               then tlvScan historicalBytes 1 r0 else .ok r0) with
        | .error e => .error e
        | .ok r1 =>
          if r1.cardName = none ∧ 6 ≤ atrBytes.length ∧
              atrBytes.getD 0 0 = 0x3B ∧ (atrBytes.getD 1 0) &&& 0xF0 = 0x80 ∧
              atrBytes.getD 2 0 = 0x80 ∧ atrBytes.getD 3 0 = 0x01 then
            .ok { r1 with cardType := some "Contactless (ISO 14443)" }
          else .ok r1

/-! ## `readCardUid` response handling (pcsc-client.js)

`readCardUid` transmits the fixed GET DATA APDU and then processes the raw
response bytes; a transmit failure propagates as an exception and never
reaches this logic, so the response-processing step is embedded on its own,
as a function of the response byte sequence. -/

def readCardUid (response : List Nat) : Option String :=
  if response.length < 2 then none
  else if response.getD (response.length - 2) 0 = 0x90 ∧
      response.getD (response.length - 1) 0 = 0x00 then
    some (bytesToHex (response.take (response.length - 2)))
  else none

/-! ## Event log (`addLog` in background.js)

`addLog` builds an entry, pushes it, and shifts the oldest entry off when
the length exceeds `MAX_LOG_ENTRIES`. -/

def MAX_LOG_ENTRIES : Nat := 50

structure LogEntry where
  timestamp : String
  level : String
  message : String
  detail : Option String
deriving DecidableEq, Repr

def addLog (log : List LogEntry) (entry : LogEntry) : List LogEntry :=
  if MAX_LOG_ENTRIES < (log ++ [entry]).length then (log ++ [entry]).tail
  else log ++ [entry]

/-! ## PcscClient pending-request table (pcsc-client.js)

The client state tracked here: the live port flag, the monotonically
increasing request counter, the pending request ids (insertion order), the
context handle and the disposed flag.  `onDisconnect` is the
`port.onDisconnect` listener; `dispose` is `PcscClient.dispose`.  Each
returns the successor state together with the rejection events delivered to
the formerly pending callers (request id and rejection message). -/

structure PcscClientState where
  port : Bool
  requestId : Nat
  pending : List Nat
  context : Option Nat
  disposed : Bool
deriving DecidableEq, Repr

def onDisconnect (s : PcscClientState) : PcscClientState × List (Nat × String) :=
  ({ s with disposed := true, pending := [], port := false, context := none },
   s.pending.map (fun rid => (rid, "Port disconnected")))

def dispose (s : PcscClientState) : PcscClientState × List (Nat × String) :=
  ({ s with disposed := true, port := false, context := none, pending := [] },
   s.pending.map (fun rid => (rid, "Client disposed")))

/-! ## Card-read step (background.js `readCard` and the poll-loop card-found
section)

The step is a function of the two sub-call outcomes: the UID read
(`client.readCardUid`, which either throws or returns a nullable string)
and the status query (`client.status`, which either throws or returns the
raw ATR bytes; a null/empty ATR is represented by `[]`, both being falsy
with the same effect in `st.atr && st.atr.length > 0`). -/

inductive ReadPatch where
  | cardState (uid : Option String) (atr : Option String) (info : Option AtrRecord)
  | errorState (msg : String)
deriving DecidableEq, Repr

structure ReadOutcome where
  statusQueried : Bool
  patch : ReadPatch
  dispatched : Bool
deriving DecidableEq, Repr

/-- JavaScript truthiness of the nullable UID string in `if (uid)`. -/
def jsTruthyUid : Option String → Bool
  | none => false
  | some s => s != ""

/-- The `atr`/`cardInfo` locals computed from the status sub-call: inside its
own try/catch, so a failure (or a thrown `parseAtr`) leaves them null; note
`atr` is assigned before `parseAtr` runs. -/
def atrFields (stRes : Except String (List Nat)) : Option String × Option AtrRecord :=
  match stRes with
  | .error _ => (none, none)
  | .ok atrBytes =>
    if 0 < atrBytes.length then
      (some (bytesToHex atrBytes),
       match parseAtr atrBytes with
       | .ok r => some r
       | .error _ => none)
    else (none, none)

/-- Event-mode `readCard` after a successful connect: the UID read is NOT
individually guarded, so a thrown UID read hits the outer catch — the
status query never runs and the state becomes the error state. -/
def readCard (uidRes : Except String (Option String))
    (stRes : Except String (List Nat)) : ReadOutcome :=
  match uidRes with
  | .error e =>
    { statusQueried := false, patch := .errorState ("Failed to read card: " ++ e),
      dispatched := false }
  | .ok uid =>
    let (atr, info) := atrFields stRes
    { statusQueried := true, patch := .cardState uid atr info,
      dispatched := jsTruthyUid uid }

/-- Poll-mode card-found section: both sub-calls sit in their own try/catch,
so each failure only nulls its own fields. -/
def pollCardRead (uidRes : Except String (Option String))
    (stRes : Except String (List Nat)) : ReadOutcome :=
  let uid := match uidRes with
             | .error _ => none
             | .ok u => u
  let (atr, info) := atrFields stRes
  { statusQueried := true, patch := .cardState uid atr info,
    dispatched := jsTruthyUid uid }

/-! ## Dispatcher (`callEndpoint` in background.js)

The endpoint call as a function of the relevant globals (`settings`,
`currentState`), the arguments (`cardUid`, `overrides`) and the network
outcome.  JSON bodies are modeled by `JsonVal`; the default body built by
`callEndpoint` only ever contains string fields. -/

inductive JsonVal where
  | jsNull
  | str (s : String)
  | obj (fields : List (String × String))
  | raw (s : String)
deriving DecidableEq, Repr

/-- JavaScript truthiness of a JSON value (`overrides.body` check). -/
def jsTruthyJson : JsonVal → Bool
  | .jsNull => false
  | .str s => s != ""
  | .obj _ => true
  | .raw _ => true

inductive ApiResp where
  | respOk (status : Nat) (body : String)
  | respFailed (msg : String)
deriving DecidableEq, Repr

structure DispatchSettings where
  endpointUrl : String
  venueId : String
  clientId : String
deriving DecidableEq, Repr

structure DispatchState where
  cardAtr : Option String
  cardInfo : Option AtrRecord
  apiRequest : Option (String × JsonVal)
  apiResponse : Option ApiResp
deriving DecidableEq, Repr

inductive DispatchStep where
  | recordRequest (url : String) (body : JsonVal)
  | logSend (url : String)
  | post (url : String) (body : JsonVal)
  | recordResponse (r : ApiResp)
  | logResponse (level : String)
  | logWarnNoUrl
deriving DecidableEq, Repr

structure DispatchOutcome where
  finalState : DispatchState
  sent : Option (String × JsonVal)
  trace : List DispatchStep
deriving DecidableEq, Repr

def optField (k : String) (v : Option String) : List (String × String) :=
  match v with
  | some s => if s != "" then [(k, s)] else []
  | none => []

/-- The default body `{card_id, venue_id, client_id}` plus the truthy
metadata fields, in the insertion order of the source. -/
def defaultBody (st : DispatchState) (settings : DispatchSettings)
    (cardUid : String) : JsonVal :=
  JsonVal.obj
    ([("card_id", cardUid), ("venue_id", settings.venueId),
      ("client_id", settings.clientId)]
     ++ optField "card_atr" st.cardAtr
     ++ (match st.cardInfo with
         | none => []
         | some ci =>
           optField "card_name" ci.cardName ++ optField "card_standard" ci.standard
             ++ optField "card_type" ci.cardType ++ optField "card_rid" ci.rid))

/-- `callEndpoint(cardUid, overrides)`: `url` falls back to the CONFIGURED
`settings.endpointUrl` (not the last request's url) when the override is
absent or falsy; an empty url skips the call with a warning; the request
record is stored (and the stale response cleared) before the POST; the
response or error record is stored after it. -/
def callEndpoint (st : DispatchState) (settings : DispatchSettings) (cardUid : String)
    (overrides : Option (Option String × Option JsonVal))
    (fetchResult : Except String (Nat × String)) : DispatchOutcome :=
  let url := match overrides with
             | some (some u, _) => if u = "" then settings.endpointUrl else u
             | some (none, _) => settings.endpointUrl
             | none => settings.endpointUrl
  if url = "" then
    { finalState := st, sent := none, trace := [.logWarnNoUrl] }
  else
    let body := match overrides with
                | some (_, some b) => if jsTruthyJson b then b
                                      else defaultBody st settings cardUid
                | some (_, none) => defaultBody st settings cardUid
                | none => defaultBody st settings cardUid
    let st1 := { st with apiRequest := some (url, body), apiResponse := none }
    let resp := match fetchResult with
                | .ok (status, rbody) => ApiResp.respOk status rbody
                | .error m => ApiResp.respFailed m
    let lvl := match fetchResult with
               | .ok (status, _) => if 200 ≤ status ∧ status < 300 then "info" else "warn"
               | .error _ => "error"
    { finalState := { st1 with apiResponse := some resp },
      sent := some (url, body),
      trace := [.recordRequest url body, .logSend url, .post url body,
                .recordResponse resp, .logResponse lvl] }

/-! ## Poll-mode detection cycle (`runPollLoop` in background.js)

One iteration of the `while (running)` loop, as a function of the engine
state and the broker responses this cycle would observe.  The performed
calls and `updateState` broadcasts are recorded as an ordered action
list; `updateSt` carries the full state right after that broadcast. -/

structure PollSt where
  status : String
  readerName : Option String
  cardUid : Option String
  cardAtr : Option String
  cardInfo : Option AtrRecord
  errorMsg : Option String
  activeCard : Option (Nat × Nat)
deriving DecidableEq, Repr

structure PollEnv where
  statusRes : Except String Unit
  readersRes : Except String (List String)
  connectRes : Except String (Nat × Nat)
  isConnectedAfterFail : Bool
  uidRes : Except String (Option String)
  stRes : Except String (List Nat)

inductive PollAct where
  | callStatus (handle : Nat)
  | callDisconnect (handle : Nat)
  | callListReaders
  | callConnect (reader : String)
  | updateSt (s : PollSt)
  | dispatch (uid : String)
  | sleepAct
  | breakLoop
deriving DecidableEq, Repr

def isUpdateSt : PollAct → Bool
  | .updateSt _ => true
  | _ => false

def pollStep (s : PollSt) (env : PollEnv) : PollSt × List PollAct :=
  match s.activeCard with
  | some (h, _) =>
    match env.statusRes with
    | .ok _ => (s, [.callStatus h, .sleepAct])
    | .error _ =>
      let s1 := { s with activeCard := none, status := "ready", cardUid := none,
                         cardAtr := none, errorMsg := none }
      (s1, [.callStatus h, .callDisconnect h, .updateSt s1])
  | none =>
    match env.readersRes with
    | .error e =>
      let s1 := { s with status := "error", readerName := none,
                         errorMsg := some ("Lost connection: " ++ e) }
      (s1, [.callListReaders, .updateSt s1, .breakLoop])
    | .ok readers =>
      if readers.isEmpty then
        let s1 := { s with status := "ready", readerName := none, cardUid := none,
                           cardAtr := none, errorMsg := none }
        (s1, [.callListReaders, .updateSt s1, .sleepAct])
      else
        let readerName := readers.headD ""
        let s1 := { s with readerName := some readerName }
        match env.connectRes with
        | .error e =>
          if !env.isConnectedAfterFail then
            let s2 := { s1 with status := "error", readerName := none,
                                errorMsg := some ("Lost connection: " ++ e) }
            (s2, [.callListReaders, .updateSt s1, .callConnect readerName,
                  .updateSt s2, .breakLoop])
          else if s1.status != "ready" then
            let s2 := { s1 with status := "ready", cardUid := none, cardAtr := none,
                                errorMsg := none }
            (s2, [.callListReaders, .updateSt s1, .callConnect readerName,
                  .updateSt s2, .sleepAct])
          else
            (s1, [.callListReaders, .updateSt s1, .callConnect readerName, .sleepAct])
        | .ok (h, p) =>
          let uid := match env.uidRes with
                     | .error _ => none
                     | .ok u => u
          let (atr, info) := atrFields env.stRes
          let s2 := { s1 with status := "card", cardUid := uid, cardAtr := atr,
                              cardInfo := info, errorMsg := none,
                              activeCard := some (h, p) }
          (s2, [.callListReaders, .updateSt s1, .callConnect readerName,
                .updateSt s2]
               ++ (match uid with
                   | some u => if u != "" then [.dispatch u] else []
                   | none => [])
               ++ [.sleepAct])

/-! ## Event-mode watch step (`runEventLoop` inner loop, background.js)

One iteration of the inner `while (running)` loop around
`getStatusChange`, as a function of that call's outcome. -/

def SCARD_E_TIMEOUT : Nat := 0x8010000A
def SCARD_E_CANCELLED : Nat := 0x80100002
def SCARD_STATE_CHANGED : Nat := 0x0002
def SCARD_STATE_PRESENT : Nat := 0x0020

inductive CallFailure where
  | pcsc (code : Nat)
  | other (msg : String)
deriving DecidableEq, Repr

structure ReaderStateRec where
  reader_name : String
  current_state : Nat
deriving DecidableEq, Repr

structure UpdatedReaderState where
  reader_name : String
  event_state : Nat
deriving DecidableEq, Repr

inductive WatchControl where
  | cont
  | brk
deriving DecidableEq, Repr

structure WatchStepResult where
  control : WatchControl
  readerStates : List ReaderStateRec
  errorPatch : Option CallFailure
  triggerRead : Bool
  cardRemovedReset : Bool
deriving DecidableEq, Repr

/-- `eventState & ~SCARD_STATE_CHANGED`: clearing one bit, width-independent. -/
def clearChanged (es : Nat) : Nat := es - (es &&& SCARD_STATE_CHANGED)

def watchStep (readerName : String) (curStatus : String)
    (readerStates : List ReaderStateRec)
    (res : Except CallFailure (List UpdatedReaderState)) : WatchStepResult :=
  match res with
  | .error (.pcsc code) =>
    if code = SCARD_E_TIMEOUT then
      { control := .cont, readerStates := readerStates, errorPatch := none,
        triggerRead := false, cardRemovedReset := false }
    else if code = SCARD_E_CANCELLED then
      { control := .brk, readerStates := readerStates, errorPatch := none,
        triggerRead := false, cardRemovedReset := false }
    else
      { control := .brk, readerStates := readerStates,
        errorPatch := some (.pcsc code), triggerRead := false,
        cardRemovedReset := false }
  | .error (.other msg) =>
    { control := .brk, readerStates := readerStates,
      errorPatch := some (.other msg), triggerRead := false,
      cardRemovedReset := false }
  | .ok updated =>
    match updated with
    | [] =>
      { control := .cont, readerStates := readerStates, errorPatch := none,
        triggerRead := false, cardRemovedReset := false }
    | rs :: _ =>
      let es := rs.event_state
      let present := es &&& SCARD_STATE_PRESENT ≠ 0
      { control := .cont,
        readerStates := [{ reader_name := readerName,
                           current_state := clearChanged es }],
        errorPatch := none,
        triggerRead := decide (present ∧ curStatus ≠ "card"),
        cardRemovedReset := decide (¬present ∧ curStatus = "card") }

/-! ## Helper lemmas -/

theorem hexDigit_mem (n : Nat) (h : n < 16) : hexDigit n ∈ "0123456789ABCDEF".data := by
  interval_cases n <;> decide

theorem byteToHex_length (b : Nat) : (byteToHex b).length = 2 := rfl

theorem byteToHex_chars (b : Nat) :
    ∀ c ∈ (byteToHex b).data, c ∈ "0123456789ABCDEF".data := by
  intro c hc
  have hc' : c ∈ [hexDigit (b / 16 % 16), hexDigit (b % 16)] := hc
  have h1 : b / 16 % 16 < 16 := Nat.mod_lt _ (by norm_num)
  have h2 : b % 16 < 16 := Nat.mod_lt _ (by norm_num)
  rcases List.mem_cons.mp hc' with h | h
  · exact h ▸ hexDigit_mem _ h1
  · rcases List.mem_cons.mp h with h' | h'
    · exact h' ▸ hexDigit_mem _ h2
    · cases h'

theorem dropLast_dropLast {α : Type} (l : List α) :
    l.dropLast.dropLast = l.take (l.length - 2) := by
  rw [List.dropLast_eq_take, List.dropLast_eq_take, List.length_take, List.take_take]
  congr 1
  omega

theorem foldl_addLog_eq (es : List LogEntry) :
    es.foldl addLog [] = es.drop (es.length - MAX_LOG_ENTRIES) := by
  induction es using List.reverseRecOn with
  | nil => rfl
  | append_singleton l e ih =>
    rw [List.foldl_append, List.foldl_cons, List.foldl_nil, ih]
    simp only [addLog, MAX_LOG_ENTRIES]
    by_cases h : l.length < 50
    · have h0 : l.length - 50 = 0 := by omega
      rw [h0, List.drop_zero, if_neg (by simp; omega)]
      have h1 : (l ++ [e]).length - 50 = 0 := by simp; omega
      rw [h1, List.drop_zero]
    · push_neg at h
      rw [if_pos (by simp; omega)]
      rw [← List.drop_append_of_le_length (by omega : l.length - 50 ≤ l.length),
        List.tail_drop]
      congr 1
      simp
      omega

/-! ## Claim theorems -/

/-- The canonical MIFARE Classic 1K ATR documented in the repository README. -/
def mifareClassicAtr : List Nat :=
  [0x3B, 0x8F, 0x80, 0x01, 0x80, 0x4F, 0x0C, 0xA0, 0x00, 0x00, 0x03, 0x06,
   0x03, 0x00, 0x01, 0x00, 0x00, 0x00, 0x00, 0x6A]

/-- C1: for the ATR `3B 8F 80 01 80 4F 0C A0 00 00 03 06 03 00 01 00 00 00 00
6A` the parser does yield `standard = "ISO 14443 A, Part 3"` and
`rid = "NXP (PC/SC standard)"`, but `cardName` comes out as `"Type 0x00"`,
not `"MIFARE Classic 1K"`: the code keys the name table with `'00' +`
(the FIRST of the two card-name bytes, here 0x00) instead of the two-byte
code `0001`, so the lookup misses and falls back. -/
theorem parseAtr_mifare_eval :
    parseAtr mifareClassicAtr =
      .ok { cardType := none,
            standard := some "ISO 14443 A, Part 3",
            cardName := some "Type 0x00",
            rid := some "NXP (PC/SC standard)",
            historicalBytes := some "80:4F:0C:A0:00:00:03:06:03:00:01:00:00:00:00" } ∧
    (parseAtr mifareClassicAtr).toOption.map AtrRecord.cardName ≠
      some (some "MIFARE Classic 1K") ∧
    (parseAtr mifareClassicAtr).toOption.map AtrRecord.standard =
      some (some "ISO 14443 A, Part 3") ∧
    (parseAtr mifareClassicAtr).toOption.map AtrRecord.rid =
      some (some "NXP (PC/SC standard)") := by
  refine ⟨rfl, ?_, rfl, rfl⟩
  decide

/-- C2: `readCardUid` on a transmit response returns the data bytes (all but
the last two) as a colon-separated string of two-character uppercase hex
pairs exactly when the response is at least 2 bytes long and ends in
0x90 0x00; otherwise it returns null. -/
theorem readCardUid_spec (resp : List Nat) (_hbytes : ∀ b ∈ resp, b < 256) :
    ((2 ≤ resp.length ∧ resp.getD (resp.length - 2) 0 = 0x90 ∧
        resp.getD (resp.length - 1) 0 = 0x00) →
      readCardUid resp =
        some (String.intercalate ":" (resp.dropLast.dropLast |>.map byteToHex)) ∧
      ∀ b ∈ resp, (byteToHex b).length = 2 ∧
        ∀ c ∈ (byteToHex b).data, c ∈ "0123456789ABCDEF".data) ∧
    (¬(2 ≤ resp.length ∧ resp.getD (resp.length - 2) 0 = 0x90 ∧
        resp.getD (resp.length - 1) 0 = 0x00) →
      readCardUid resp = none) := by
  constructor
  · rintro ⟨h1, h2, h3⟩
    refine ⟨?_, fun b hbm => ⟨byteToHex_length b, byteToHex_chars b⟩⟩
    unfold readCardUid bytesToHex
    rw [if_neg (by omega), if_pos ⟨h2, h3⟩, dropLast_dropLast]
  · intro hn
    unfold readCardUid
    by_cases hl : resp.length < 2
    · rw [if_pos hl]
    · have h2 : 2 ≤ resp.length := by omega
      rw [if_neg hl, if_neg (fun hc => hn ⟨h2, hc⟩)]

theorem readCardUid_spec_witness :
    readCardUid [0x04, 0xA2, 0x90, 0x00] =
      some (String.intercalate ":"
        (([0x04, 0xA2, 0x90, 0x00] : List Nat).dropLast.dropLast |>.map byteToHex)) ∧
    readCardUid [0x04, 0xA2, 0x63, 0x00] = none := by
  constructor
  · exact ((readCardUid_spec [0x04, 0xA2, 0x90, 0x00] (by decide)).1 (by decide)).1
  · exact (readCardUid_spec [0x04, 0xA2, 0x63, 0x00] (by decide)).2 (by decide)

/-- An ATR whose compact-TLV application-identifier entry declares length 7
with the PC/SC storage RID but whose historical bytes end right after the
RID.  `parseAtr` reads the standard byte `historicalBytes[8]` without a
bounds check; the element is `undefined` and `.toString(16)` throws. -/
def truncatedStorageAtr : List Nat :=
  [0x3B, 0x08, 0x80, 0x4F, 0x07, 0xA0, 0x00, 0x00, 0x03, 0x06]

/-- C3: `parseAtr` does NOT terminate without raising on every byte
sequence: on `truncatedStorageAtr` the unguarded standard/card-name byte
reads throw a TypeError (while the too-short case is indeed all-null). -/
theorem parseAtr_throws_on_truncated_tlv :
    parseAtr truncatedStorageAtr = .error "TypeError: undefined historical byte" ∧
    parseAtr [0x3B] = .ok nullAtrRecord ∧
    parseAtr [] = .ok nullAtrRecord := ⟨rfl, rfl, rfl⟩

/-- C4: starting from the empty log, any sequence of appends leaves exactly
the last (at most 50) entries in insertion order: the log equals
`es.drop (es.length - 50)`, its length never exceeds 50, and after 51
appends it is exactly the tail (first entry evicted, 51st last). -/
theorem eventLog_bounded (es : List LogEntry) :
    es.foldl addLog [] = es.drop (es.length - MAX_LOG_ENTRIES) ∧
    (es.foldl addLog []).length ≤ MAX_LOG_ENTRIES ∧
    (es.length = 51 → es.foldl addLog [] = es.tail) := by
  refine ⟨foldl_addLog_eq es, ?_, ?_⟩
  · rw [foldl_addLog_eq]
    simp only [List.length_drop, MAX_LOG_ENTRIES]
    omega
  · intro h51
    rw [foldl_addLog_eq, h51]
    norm_num [MAX_LOG_ENTRIES, List.drop_one]

def fiftyOneEntries : List LogEntry :=
  (List.range 51).map
    (fun n => { timestamp := "", level := "info", message := toString n, detail := none })

theorem eventLog_bounded_witness :
    fiftyOneEntries.foldl addLog [] = fiftyOneEntries.tail :=
  (eventLog_bounded fiftyOneEntries).2.2 (by simp [fiftyOneEntries])

/-- C10: a transmit response of exactly `90 00` makes `readCardUid` return
the EMPTY string (not null); the empty string is falsy in `if (uid)`, so
neither the event-mode nor the poll-mode card-read step dispatches, even
though the status word reported success. -/
theorem readCardUid_empty_uid :
    readCardUid [0x90, 0x00] = some "" ∧
    (readCard (.ok (some "")) (.ok [])).dispatched = false ∧
    (readCard (.ok (some "")) (.ok [])).patch = .cardState (some "") none none ∧
    (pollCardRead (.ok (some "")) (.ok [])).dispatched = false :=
  ⟨rfl, rfl, rfl, rfl⟩

/-- C5: the port-disconnect handler and `dispose` both reject every pending
call (with the disconnect / disposed error respectively) and leave the
pending table empty — no request id is left unresolved. -/
theorem pending_resolved_on_disconnect (s : PcscClientState) :
    (onDisconnect s).1.pending = [] ∧
    ((onDisconnect s).2).map Prod.fst = s.pending ∧
    (∀ pr ∈ (onDisconnect s).2, pr.2 = "Port disconnected") ∧
    (onDisconnect s).1.disposed = true ∧
    (dispose s).1.pending = [] ∧
    ((dispose s).2).map Prod.fst = s.pending ∧
    (∀ pr ∈ (dispose s).2, pr.2 = "Client disposed") ∧
    (dispose s).1.disposed = true := by
  refine ⟨rfl, ?_, ?_, rfl, rfl, ?_, ?_, rfl⟩
  · simp only [onDisconnect, List.map_map]
    exact List.map_id _
  · intro pr hpr
    simp only [onDisconnect, List.mem_map] at hpr
    obtain ⟨a, _, rfl⟩ := hpr
    rfl
  · simp only [dispose, List.map_map]
    exact List.map_id _
  · intro pr hpr
    simp only [dispose, List.mem_map] at hpr
    obtain ⟨a, _, rfl⟩ := hpr
    rfl

theorem pending_resolved_witness :
    (onDisconnect { port := true, requestId := 3, pending := [1, 2, 3],
                    context := some 7, disposed := false }).1.pending = [] ∧
    ((onDisconnect { port := true, requestId := 3, pending := [1, 2, 3],
                     context := some 7, disposed := false }).2).map Prod.fst = [1, 2, 3] ∧
    ((1 : Nat), "Port disconnected").2 = "Port disconnected" :=
  ⟨(pending_resolved_on_disconnect _).1, (pending_resolved_on_disconnect _).2.1,
   (pending_resolved_on_disconnect
     { port := true, requestId := 3, pending := [1, 2, 3],
       context := some 7, disposed := false }).2.2.1 _ (by decide)⟩

/-- C6 counterexample: in the event-mode `readCard`, a UID read that throws
hits the outer catch — the status query is never performed (its would-be
outcome is not reflected; the state becomes the error state), refuting
"a failure of either sub-step does not abort the other" for this step. -/
theorem readCard_uid_throw_aborts :
    (readCard (.error "transmit error") (.ok [0x3B])).statusQueried = false ∧
    (readCard (.error "transmit error") (.ok [0x3B])).patch =
      .errorState "Failed to read card: transmit error" ∧
    (readCard (.error "transmit error") (.ok [0x3B])).dispatched = false :=
  ⟨rfl, rfl, rfl⟩

/-- C6 (amended): in the poll-mode card-found step both sub-steps are always
performed and independently guarded; in the event-mode `readCard` the
status-query failure never aborts the UID handling and a returned (possibly
null) UID never aborts the status query, but a thrown UID read aborts the
step (status not queried, error state, no dispatch).  In both steps the
dispatcher is invoked iff a non-empty UID string was obtained. -/
theorem cardRead_substeps (uidRes : Except String (Option String))
    (stRes : Except String (List Nat)) :
    (pollCardRead uidRes stRes).statusQueried = true ∧
    ((pollCardRead uidRes stRes).dispatched = true ↔
      ∃ s, uidRes = .ok (some s) ∧ s ≠ "") ∧
    (∀ uid, uidRes = .ok uid → readCard uidRes stRes = pollCardRead uidRes stRes) ∧
    (∀ e, uidRes = .error e →
      (readCard uidRes stRes).statusQueried = false ∧
      (readCard uidRes stRes).patch = .errorState ("Failed to read card: " ++ e) ∧
      (readCard uidRes stRes).dispatched = false) ∧
    ((readCard uidRes stRes).dispatched = true ↔
      ∃ s, uidRes = .ok (some s) ∧ s ≠ "") := by
  cases uidRes with
  | error e =>
    refine ⟨rfl, ?_, ?_, ?_, ?_⟩
    · simp [pollCardRead, jsTruthyUid]
    · intro uid huid
      cases huid
    · intro e' he
      cases he
      exact ⟨rfl, rfl, rfl⟩
    · simp [readCard]
  | ok uid =>
    refine ⟨rfl, ?_, fun _ _ => rfl, ?_, ?_⟩
    · cases uid with
      | none => simp [pollCardRead, jsTruthyUid]
      | some s => simp [pollCardRead, jsTruthyUid, bne_iff_ne]
    · intro e' he
      cases he
    · cases uid with
      | none => simp [readCard, jsTruthyUid]
      | some s => simp [readCard, jsTruthyUid, bne_iff_ne]

theorem cardRead_substeps_witness :
    (pollCardRead (.error "boom") (.ok [])).statusQueried = true ∧
    readCard (.ok (some "04:A2")) (.error "status failed") =
      pollCardRead (.ok (some "04:A2")) (.error "status failed") :=
  ⟨(cardRead_substeps (.error "boom") (.ok [])).1,
   (cardRead_substeps (.ok (some "04:A2")) (.error "status failed")).2.2.1
     (some "04:A2") rfl⟩

/-- A state whose last recorded request went to a different URL than the
currently configured endpoint. -/
def lastReqState : DispatchState :=
  { cardAtr := none, cardInfo := none,
    apiRequest := some ("http://a.example/hit", .obj [("card_id", "AA")]),
    apiResponse := none }

def cfgSettings : DispatchSettings :=
  { endpointUrl := "http://b.example/hit", venueId := "v1", clientId := "c1" }

/-- C7 counterexample: a resend carrying only an override body is POSTed to
the CONFIGURED endpoint URL, not to the URL of the last request. -/
theorem resend_fallback_not_last_url :
    (callEndpoint lastReqState cfgSettings "AA"
        (some (none, some (.obj [("card_id", "BB")]))) (.ok (200, "ok"))).sent =
      some ("http://b.example/hit", .obj [("card_id", "BB")]) ∧
    lastReqState.apiRequest = some ("http://a.example/hit", .obj [("card_id", "AA")]) ∧
    ("http://b.example/hit" : String) ≠ "http://a.example/hit" :=
  ⟨rfl, rfl, by decide⟩

/-- The effective URL of a dispatch: the override when given and non-empty,
otherwise the CONFIGURED endpoint URL. -/
def effUrl (urlOv : Option String) (settings : DispatchSettings) : String :=
  match urlOv with
  | some u => if u = "" then settings.endpointUrl else u
  | none => settings.endpointUrl

def respOf (fetchResult : Except String (Nat × String)) : ApiResp :=
  match fetchResult with
  | .ok (status, rbody) => .respOk status rbody
  | .error m => .respFailed m

def lvlOf (fetchResult : Except String (Nat × String)) : String :=
  match fetchResult with
  | .ok (status, _) => if 200 ≤ status ∧ status < 300 then "info" else "warn"
  | .error _ => "error"

/-- C7 (amended): a resend with a truthy override body sends exactly that
body, to the override URL when one is given and otherwise to the CURRENTLY
CONFIGURED endpoint URL (not the last request's URL); the outbound request
record is written (and the stale response cleared) before the POST, and the
new request/response pair overwrites the previous one. -/
theorem callEndpoint_resend_spec (st : DispatchState) (settings : DispatchSettings)
    (cardUid : String) (urlOv : Option String) (b : JsonVal)
    (fetchResult : Except String (Nat × String))
    (hb : jsTruthyJson b = true) (hu : effUrl urlOv settings ≠ "") :
    callEndpoint st settings cardUid (some (urlOv, some b)) fetchResult =
      { finalState := { st with apiRequest := some (effUrl urlOv settings, b),
                                apiResponse := some (respOf fetchResult) },
        sent := some (effUrl urlOv settings, b),
        trace := [.recordRequest (effUrl urlOv settings) b,
                  .logSend (effUrl urlOv settings),
                  .post (effUrl urlOv settings) b,
                  .recordResponse (respOf fetchResult),
                  .logResponse (lvlOf fetchResult)] } := by
  cases urlOv with
  | none =>
    simp only [effUrl] at hu ⊢
    simp [callEndpoint, hb, hu, respOf, lvlOf]
  | some u =>
    by_cases hue : u = ""
    · subst hue
      simp only [effUrl, if_pos] at hu ⊢
      simp [callEndpoint, hb, hu, respOf, lvlOf]
    · simp only [effUrl, if_neg hue] at hu ⊢
      simp [callEndpoint, hb, hu, hue, respOf, lvlOf]

theorem callEndpoint_resend_witness :
    callEndpoint lastReqState cfgSettings "AA"
        (some (some "http://c.example/hit", some (.obj [("card_id", "CC")])))
        (.error "network down") =
      { finalState := { lastReqState with
          apiRequest := some ("http://c.example/hit", .obj [("card_id", "CC")]),
          apiResponse := some (.respFailed "network down") },
        sent := some ("http://c.example/hit", .obj [("card_id", "CC")]),
        trace := [.recordRequest "http://c.example/hit" (.obj [("card_id", "CC")]),
                  .logSend "http://c.example/hit",
                  .post "http://c.example/hit" (.obj [("card_id", "CC")]),
                  .recordResponse (.respFailed "network down"),
                  .logResponse "error"] } :=
  callEndpoint_resend_spec lastReqState cfgSettings "AA"
    (some "http://c.example/hit") (.obj [("card_id", "CC")])
    (.error "network down") rfl (by decide)

/-- C8: in poll mode, a held handle whose status call fails is disconnected,
the held handle is cleared, and exactly one state broadcast moves the
engine to `ready` with `cardUid`/`cardAtr` cleared; a later cycle whose
`connectCard` succeeds re-enters `card` and retains the new handle. -/
theorem pollLoop_removal_and_reconnect (s : PollSt) (env env2 : PollEnv)
    (h p : Nat) (e : String)
    (hheld : s.activeCard = some (h, p)) (hfail : env.statusRes = .error e) :
    (pollStep s env).1 =
      { s with activeCard := none, status := "ready", cardUid := none,
               cardAtr := none, errorMsg := none } ∧
    (pollStep s env).2 =
      [.callStatus h, .callDisconnect h,
       .updateSt { s with activeCard := none, status := "ready", cardUid := none,
                          cardAtr := none, errorMsg := none }] ∧
    ((pollStep s env).2.filter isUpdateSt).length = 1 ∧
    (∀ h2 p2 r rest,
      env2.readersRes = .ok (r :: rest) → env2.connectRes = .ok (h2, p2) →
      (pollStep (pollStep s env).1 env2).1.status = "card" ∧
      (pollStep (pollStep s env).1 env2).1.activeCard = some (h2, p2)) := by
  have hstep : pollStep s env =
      ({ s with activeCard := none, status := "ready", cardUid := none,
                cardAtr := none, errorMsg := none },
       [.callStatus h, .callDisconnect h,
        .updateSt { s with activeCard := none, status := "ready", cardUid := none,
                           cardAtr := none, errorMsg := none }]) := by
    simp only [pollStep, hheld, hfail]
  refine ⟨by rw [hstep], by rw [hstep], by rw [hstep]; rfl, ?_⟩
  intro h2 p2 r rest hrd hcn
  rw [hstep]
  simp only [pollStep, hrd, hcn]
  simp [atrFields]

def heldCardState : PollSt :=
  { status := "card", readerName := some "ACR122U", cardUid := some "04:A2",
    cardAtr := none, cardInfo := none, errorMsg := none, activeCard := some (5, 2) }

def envHeldFail : PollEnv :=
  { statusRes := .error "removed", readersRes := .ok [],
    connectRes := .error "x", isConnectedAfterFail := true,
    uidRes := .ok none, stRes := .ok [] }

def envReconnect : PollEnv :=
  { statusRes := .ok (), readersRes := .ok ["ACR122U"],
    connectRes := .ok (7, 2), isConnectedAfterFail := true,
    uidRes := .ok (some "04:A2"), stRes := .ok [] }

theorem pollLoop_removal_witness :
    (pollStep heldCardState envHeldFail).1 =
      { heldCardState with activeCard := none, status := "ready", cardUid := none,
                           cardAtr := none, errorMsg := none } ∧
    (pollStep (pollStep heldCardState envHeldFail).1 envReconnect).1.status = "card" ∧
    (pollStep (pollStep heldCardState envHeldFail).1 envReconnect).1.activeCard =
      some (7, 2) := by
  have H := pollLoop_removal_and_reconnect heldCardState envHeldFail envReconnect
    5 2 "removed" rfl rfl
  exact ⟨H.1, (H.2.2.2 7 2 "ACR122U" [] rfl rfl).1, (H.2.2.2 7 2 "ACR122U" [] rfl rfl).2⟩

/-- C9: in the event-mode watch loop, a `getStatusChange` failure with the
timeout sentinel re-issues the wait leaving the reader-state watch list and
the detection state untouched; the cancellation sentinel breaks out of the
loop without a state patch; any other failure (PC/SC-coded or not) records
the error state and exits the loop. -/
theorem watchStep_error_handling (rn cur : String) (rs : List ReaderStateRec) :
    watchStep rn cur rs (.error (.pcsc SCARD_E_TIMEOUT)) =
      { control := .cont, readerStates := rs, errorPatch := none,
        triggerRead := false, cardRemovedReset := false } ∧
    watchStep rn cur rs (.error (.pcsc SCARD_E_CANCELLED)) =
      { control := .brk, readerStates := rs, errorPatch := none,
        triggerRead := false, cardRemovedReset := false } ∧
    (∀ code, code ≠ SCARD_E_TIMEOUT → code ≠ SCARD_E_CANCELLED →
      watchStep rn cur rs (.error (.pcsc code)) =
        { control := .brk, readerStates := rs, errorPatch := some (.pcsc code),
          triggerRead := false, cardRemovedReset := false }) ∧
    (∀ msg, watchStep rn cur rs (.error (.other msg)) =
      { control := .brk, readerStates := rs, errorPatch := some (.other msg),
        triggerRead := false, cardRemovedReset := false }) := by
  refine ⟨by simp [watchStep], by simp [watchStep, SCARD_E_CANCELLED, SCARD_E_TIMEOUT],
    ?_, fun msg => rfl⟩
  intro code hne1 hne2
  simp only [watchStep]
  rw [if_neg hne1, if_neg hne2]

theorem watchStep_error_witness :
    watchStep "ACR122U" "ready" [] (.error (.pcsc 0x80100017)) =
      { control := .brk, readerStates := [], errorPatch := some (.pcsc 0x80100017),
        triggerRead := false, cardRemovedReset := false } :=
  (watchStep_error_handling "ACR122U" "ready" []).2.2.1 0x80100017
    (by decide) (by decide)

end CardReader
